import Mathlib

/-!
Shallow embedding of the layered I/O core of the repository
(src/src/nspr/fd.rs and src/src/lib.rs): the `FileMethods` transport
capability, the `FileWrapper` operation table, the `wrapper_methods`
dispatch callbacks, `File`/`BorrowedFile` handle management, and the
TLS hook plumbing of lib.rs.

Conventions of the embedding:
- Rust `Result<T>` (with the repository's NSPR error type) becomes
  `Except Error T`.
- A Rust panic (a failed `assert!`/`assert_eq!` or `unimplemented!()`)
  is a process trap, per the spec's error taxonomy; it is modelled by a
  distinguished `trap` outcome, disjoint from the recoverable error
  channel.
- A dispatch callback invoked through the foreign operation table
  either returns a value to the foreign caller (`ret`), or populates
  the thread-local error state and returns the failure sentinel
  (`errorOut e`, carrying the error it stores), or traps (`trap`).
- Raw pointers that may be null are modelled as `Option`; byte buffers
  cross the dispatch boundary only through their lengths, which is all
  the verified properties inspect.
-/

/-- NSPR error value, as carried by the repository's `Error` type
(field `nspr_error` is how lib.rs's tests access it). The error module
itself (src/nspr/error.rs) is not under src/; only the code value is
needed here. -/
structure Error where
  nspr_error : Int
deriving DecidableEq, Repr

/-- Modelled from the spec: the distinguished would-block error code of
the missing nss_sys bindings (spec section 7(b)); its concrete value is
the NSPR constant, only its distinctness from other codes matters. -/
def PR_WOULD_BLOCK_ERROR : Error := ⟨-5998⟩

/-- Modelled from the spec: the unsupported-address-family error code of
the missing nss_sys bindings (spec section 7(d)). -/
def PR_ADDRESS_NOT_SUPPORTED_ERROR : Error := ⟨-5969⟩

/-- Foreign security-operation status (nss_sys `SECStatus`). -/
inductive SECStatus where
  | SECWouldBlock : SECStatus
  | SECFailure : SECStatus
  | SECSuccess : SECStatus
deriving DecidableEq, Repr

/-- Foreign layering-protocol status (nspr `PRStatus`). -/
inductive PRStatus where
  | PR_FAILURE : PRStatus
  | PR_SUCCESS : PRStatus
deriving DecidableEq, Repr

/-- Socket address after translation out of the foreign `PRNetAddr`
encoding (`std::net::SocketAddr` on the Rust side); only its identity
matters to the verified properties. -/
structure SocketAddr where
  ip : Nat
  port : Nat
deriving DecidableEq, Repr

/-- Timeouts are `Option<Duration>` on the Rust side; the duration value
is opaque to the dispatch layer, which only forwards it. -/
def Duration := Nat
deriving DecidableEq, Repr

/-- Outcome of invoking one method of the `FileMethods` capability:
`ok v` and `err e` are the two sides of the Rust `Result`, and `unimpl`
is the `unimplemented!()` panic of a default method body. -/
inductive MethodResult (α : Type) where
  | ok : α → MethodResult α
  | err : Error → MethodResult α
  | unimpl : MethodResult α
deriving DecidableEq, Repr

/-- Outcome of a dispatch callback at the foreign boundary: `ret v`
returns `v` to the foreign caller, `errorOut e` stores `e` in the
thread-local error state and returns the failure sentinel, `trap` is a
process trap (failed assertion or panic). -/
inductive Outcome (α : Type) where
  | ret : α → Outcome α
  | errorOut : Error → Outcome α
  | trap : Outcome α
deriving DecidableEq, Repr

/-- Sequencing of dispatch steps: a trap or an error cuts the rest short. -/
def Outcome.bind {α β : Type} : Outcome α → (α → Outcome β) → Outcome β
  | .ret a, f => f a
  | .errorOut e, _ => .errorOut e
  | .trap, _ => .trap

/-- The `FileMethods` transport capability (trait `FileMethods` in
fd.rs): the polymorphic operation set a transport implements to be
wrapped. Buffers appear as their byte lengths: `read buf.len`,
`write buf.len`, `recv buf.len peek timeout`, `send buf.len timeout`. -/
structure FileMethods where
  read : Nat → MethodResult Nat
  write : Nat → MethodResult Nat
  connect : SocketAddr → Option Duration → MethodResult Unit
  recv : Nat → Bool → Option Duration → MethodResult Nat
  send : Nat → Option Duration → MethodResult Nat
  getsockname : MethodResult SocketAddr
  getpeername : MethodResult SocketAddr
  get_nonblocking : MethodResult Bool

/-- The default method bodies of trait `FileMethods` (fd.rs lines
127-153): every one of the eight operations is `unimplemented!()`. A
transport overriding none of them gets exactly this implementation. -/
def FileMethods.defaults : FileMethods where
  read := fun _ => .unimpl
  write := fun _ => .unimpl
  connect := fun _ _ => .unimpl
  recv := fun _ _ _ => .unimpl
  send := fun _ _ => .unimpl
  getsockname := .unimpl
  getpeername := .unimpl
  get_nonblocking := .unimpl

/-- Translation of a foreign `SECStatus` into the repository's `Result`
(`result_secstatus` in lib.rs lines 24-32). `failed()` of the missing
error module reads the thread-local NSPR error state, modelled here as
the explicit argument `threadLocalError`. -/
def result_secstatus (threadLocalError : Error) (status : SECStatus) :
    Except Error Unit :=
  match status with
  | .SECSuccess => Except.ok ()
  | .SECFailure => Except.error threadLocalError
  | .SECWouldBlock => Except.error PR_WOULD_BLOCK_ERROR

/-- Shallow model of the foreign `PRFileDesc` layer header, keeping the
three observables the verified code inspects: `identity` is the
layer-identity tag stored in the header; `addr` is the pointer value of
the header itself (the raw handle through which it is reached);
`secretHeaderAddr` is the current address of the `prfd` header embedded
in the `WrappedFileImpl` allocation that the header's `secret` field
points back to (read via `get_mut` in the close callback and compared
against `addr`; unused by the other callbacks). A raw handle
(`RawFile = *mut PRFileDesc`) is `Option PRFileDesc`, `none` being the
null pointer. -/
structure PRFileDesc where
  identity : Nat
  addr : Nat
  secretHeaderAddr : Nat
deriving DecidableEq, Repr

/-- Modelled from the spec: the process-wide wrapped-file identity tag,
obtained once per process from the missing foreign
`PR_GetUniqueIdentity` (the `lazy_static` `WRAPPED_FILE_IDENT` in
fd.rs); its concrete value is irrelevant, it is a fixed process-wide
token. -/
def WRAPPED_FILE_IDENT : Nat := 1

/-- The `BorrowedFile::from_raw_prfd` constructor (fd.rs lines 97-100):
`assert!(fd != null())`, then wrap the handle without taking
ownership. -/
def BorrowedFile.from_raw_prfd (fd : Option PRFileDesc) : Outcome PRFileDesc :=
  match fd with
  | none => Outcome.trap
  | some d => Outcome.ret d

/-- The checked `BorrowedFile::from_raw_prfd_checked` constructor (fd.rs
lines 101-104): `assert_eq!((*fd).identity, ident)` — a null handle
cannot be dereferenced, so it also traps — then defer to
`from_raw_prfd`. -/
def BorrowedFile.from_raw_prfd_checked (fd : Option PRFileDesc)
    (ident : Nat) : Outcome PRFileDesc :=
  match fd with
  | none => Outcome.trap
  | some d =>
      if d.identity = ident then BorrowedFile.from_raw_prfd (some d)
      else Outcome.trap

/-- Observable effect of `impl Drop for File` (fd.rs lines 28-35):
the handle value left stored in the `File` after the destructor ran,
and how many times `PR_Close` was invoked. The destructor has no error
output: `DropEffect` deliberately has no field for one. -/
structure DropEffect where
  newHandle : Option PRFileDesc
  closeCalls : Nat
deriving DecidableEq, Repr

/-- The `File` destructor (fd.rs lines 28-35): `mem::replace` the stored
handle with null, close only if the old handle was non-null, and bind
the close status to `_status`, discarding it. `closeResult` is whatever
`PR_Close` reports when it is called; the definition never inspects
it. -/
def File.drop (handle : Option PRFileDesc)
    (_closeResult : Except Error Unit) : DropEffect :=
  match handle with
  | none => { newHandle := none, closeCalls := 0 }
  | some _ => { newHandle := none, closeCalls := 1 }

/-- Claim C5: every operation of the `FileMethods` capability (read,
write, connect, recv, send, getsockname, getpeername, get_nonblocking)
has a default implementation that panics unconditionally
(`unimplemented!()`), so invoking an operation a transport did not
override is a fatal trap and never returns through the ordinary
`Result` error channel. -/
theorem fileMethods_defaults_all_unimplemented :
    (∀ n, FileMethods.defaults.read n = MethodResult.unimpl)
    ∧ (∀ n, FileMethods.defaults.write n = MethodResult.unimpl)
    ∧ (∀ a t, FileMethods.defaults.connect a t = MethodResult.unimpl)
    ∧ (∀ n p t, FileMethods.defaults.recv n p t = MethodResult.unimpl)
    ∧ (∀ n t, FileMethods.defaults.send n t = MethodResult.unimpl)
    ∧ FileMethods.defaults.getsockname = MethodResult.unimpl
    ∧ FileMethods.defaults.getpeername = MethodResult.unimpl
    ∧ FileMethods.defaults.get_nonblocking = MethodResult.unimpl
    ∧ (∀ (α : Type) (e : Error), (MethodResult.unimpl : MethodResult α) ≠ MethodResult.err e)
    ∧ (∀ (α : Type) (v : α), (MethodResult.unimpl : MethodResult α) ≠ MethodResult.ok v) := by
  refine ⟨fun _ => rfl, fun _ => rfl, fun _ _ => rfl, fun _ _ _ => rfl,
    fun _ _ => rfl, rfl, rfl, rfl, fun α e h => ?_, fun α v h => ?_⟩
  · exact MethodResult.noConfusion h
  · exact MethodResult.noConfusion h

/-- Claim C8: translating a foreign security-operation status maps a
success status to `Ok`, a failure status to an `Err` carrying the
thread-local error state, and a would-block status to an `Err` carrying
the distinguished would-block error kind, regardless of the thread-local
state — never to the generic failure path. -/
theorem result_secstatus_cases :
    (∀ e, result_secstatus e SECStatus.SECSuccess = Except.ok ())
    ∧ (∀ e, result_secstatus e SECStatus.SECFailure = Except.error e)
    ∧ (∀ e, result_secstatus e SECStatus.SECWouldBlock
        = Except.error PR_WOULD_BLOCK_ERROR) :=
  ⟨fun _ => rfl, fun _ => rfl, fun _ => rfl⟩

/-- Socket option selector carried by the foreign `PRSocketOptionData`
(`(*data).get_enum()` in the getsocketoption callback): the nonblocking
option, or any of the other option kinds the callback does not
handle. -/
inductive SockOptionKind where
  | Nonblocking : SockOptionKind
  | other : Nat → SockOptionKind
deriving DecidableEq, Repr

/-- Modelled from the spec: the `PR_MSG_PEEK` flag bit of the missing
nss_sys bindings, tested by the recv callback with a bitwise and. -/
def PR_MSG_PEEK : Nat := 2

namespace wrapper_methods

/-- The `xlate_fd` helper of the dispatch module (fd.rs lines 360-364):
recover a typed borrowed file from the raw handle via the checked
constructor against the process-wide wrapped-file identity. -/
def xlate_fd (fd : Option PRFileDesc) : Outcome PRFileDesc :=
  BorrowedFile.from_raw_prfd_checked fd WRAPPED_FILE_IDENT

/-- The close dispatch callback (fd.rs lines 366-381): recover the
borrowed file, `assert_eq!` that the address of the recovered
`WrappedFileImpl`'s embedded `prfd` header equals the raw handle the
callback was called with, and only then `Box::from_raw` the allocation
and drop it. `freed` counts how many times the allocation has been
reclaimed; the callback returns the updated count. -/
def close (fd : Option PRFileDesc) (freed : Nat) : Outcome PRStatus × Nat :=
  match xlate_fd fd with
  | Outcome.ret this =>
      if this.secretHeaderAddr = this.addr then
        (Outcome.ret PRStatus.PR_SUCCESS, freed + 1)
      else (Outcome.trap, freed)
  | Outcome.errorOut e => (Outcome.errorOut e, freed)
  | Outcome.trap => (Outcome.trap, freed)

/-- The read dispatch callback (fd.rs lines 383-398): recover the
borrowed file, `assert!(amount >= 0)`, forward to the transport's
`read` over a buffer of length `amount`, and on success
`assert!(len <= amount as usize)` before narrowing the count to the
foreign `PRInt32`. `m` is the transport recovered through the handle's
secret payload. -/
def read (m : FileMethods) (fd : Option PRFileDesc) (amount : Int) :
    Outcome Int :=
  (xlate_fd fd).bind fun _ =>
    if amount < 0 then Outcome.trap
    else
      match m.read amount.toNat with
      | MethodResult.ok len =>
          if len ≤ amount.toNat then Outcome.ret (Int.ofNat len)
          else Outcome.trap
      | MethodResult.err e => Outcome.errorOut e
      | MethodResult.unimpl => Outcome.trap

/-- The write dispatch callback (fd.rs lines 400-415): same shape as
read, forwarding to the transport's `write`. -/
def write (m : FileMethods) (fd : Option PRFileDesc) (amount : Int) :
    Outcome Int :=
  (xlate_fd fd).bind fun _ =>
    if amount < 0 then Outcome.trap
    else
      match m.write amount.toNat with
      | MethodResult.ok len =>
          if len ≤ amount.toNat then Outcome.ret (Int.ofNat len)
          else Outcome.trap
      | MethodResult.err e => Outcome.errorOut e
      | MethodResult.unimpl => Outcome.trap

/-- The connect dispatch callback (fd.rs lines 417-432): recover the
borrowed file, decode the foreign net address (the decoder lives in the
missing nspr/net.rs, so the callback is modelled on its decoded result
`addr`), forward on success, and report the address-not-supported error
through the error channel when decoding fails. -/
def connect (m : FileMethods) (fd : Option PRFileDesc)
    (addr : Option SocketAddr) (timeout : Option Duration) :
    Outcome PRStatus :=
  (xlate_fd fd).bind fun _ =>
    match addr with
    | some rust_addr =>
        match m.connect rust_addr timeout with
        | MethodResult.ok _ => Outcome.ret PRStatus.PR_SUCCESS
        | MethodResult.err e => Outcome.errorOut e
        | MethodResult.unimpl => Outcome.trap
    | none => Outcome.errorOut PR_ADDRESS_NOT_SUPPORTED_ERROR

/-- The recv dispatch callback (fd.rs lines 434-456): like read, but
decoding the peek flag from the foreign flag bits and forwarding the
translated timeout. -/
def recv (m : FileMethods) (fd : Option PRFileDesc) (amount : Int)
    (flags : Nat) (timeout : Option Duration) : Outcome Int :=
  (xlate_fd fd).bind fun _ =>
    if amount < 0 then Outcome.trap
    else
      let peek := (flags &&& PR_MSG_PEEK) ≠ 0
      match m.recv amount.toNat peek timeout with
      | MethodResult.ok len =>
          if len ≤ amount.toNat then Outcome.ret (Int.ofNat len)
          else Outcome.trap
      | MethodResult.err e => Outcome.errorOut e
      | MethodResult.unimpl => Outcome.trap

/-- The send dispatch callback (fd.rs lines 458-478): like write, with
the foreign flag bits ignored and the translated timeout forwarded. -/
def send (m : FileMethods) (fd : Option PRFileDesc) (amount : Int)
    (_flags : Nat) (timeout : Option Duration) : Outcome Int :=
  (xlate_fd fd).bind fun _ =>
    if amount < 0 then Outcome.trap
    else
      match m.send amount.toNat timeout with
      | MethodResult.ok len =>
          if len ≤ amount.toNat then Outcome.ret (Int.ofNat len)
          else Outcome.trap
      | MethodResult.err e => Outcome.errorOut e
      | MethodResult.unimpl => Outcome.trap

/-- The getsockname dispatch callback (fd.rs lines 480-491): forward to
the transport and write the translated address into the foreign out
parameter on success (the written address is returned alongside the
status). -/
def getsockname (m : FileMethods) (fd : Option PRFileDesc) :
    Outcome (PRStatus × SocketAddr) :=
  (xlate_fd fd).bind fun _ =>
    match m.getsockname with
    | MethodResult.ok rust_addr =>
        Outcome.ret (PRStatus.PR_SUCCESS, rust_addr)
    | MethodResult.err e => Outcome.errorOut e
    | MethodResult.unimpl => Outcome.trap

/-- The getpeername dispatch callback (fd.rs lines 493-504): same shape
as getsockname. -/
def getpeername (m : FileMethods) (fd : Option PRFileDesc) :
    Outcome (PRStatus × SocketAddr) :=
  (xlate_fd fd).bind fun _ =>
    match m.getpeername with
    | MethodResult.ok rust_addr =>
        Outcome.ret (PRStatus.PR_SUCCESS, rust_addr)
    | MethodResult.err e => Outcome.errorOut e
    | MethodResult.unimpl => Outcome.trap

/-- The getsocketoption dispatch callback (fd.rs lines 506-523): only
the nonblocking option kind is handled, forwarding to the transport's
`get_nonblocking` and writing the boolean into the foreign option
structure (returned alongside the status); every other option kind hits
`unimplemented!()`. -/
def getsocketoption (m : FileMethods) (fd : Option PRFileDesc)
    (kind : SockOptionKind) : Outcome (PRStatus × Bool) :=
  (xlate_fd fd).bind fun _ =>
    match kind with
    | SockOptionKind.Nonblocking =>
        match m.get_nonblocking with
        | MethodResult.ok b => Outcome.ret (PRStatus.PR_SUCCESS, b)
        | MethodResult.err e => Outcome.errorOut e
        | MethodResult.unimpl => Outcome.trap
    | SockOptionKind.other _ => Outcome.trap

end wrapper_methods

/-- `File::getsockname` of `impl FileMethods for File` (fd.rs lines
218-225): call the foreign `PR_GetSockName` (its wrapped result is
`ffiStatus`), then decode the filled net-address buffer (`decoded` is
the decoder's result); a decode failure after a successful call is the
address-not-supported error. -/
def File.getsockname (ffiStatus : Except Error Unit)
    (decoded : Option SocketAddr) : Except Error SocketAddr :=
  match ffiStatus with
  | Except.error e => Except.error e
  | Except.ok _ =>
      match decoded with
      | some addr => Except.ok addr
      | none => Except.error PR_ADDRESS_NOT_SUPPORTED_ERROR

/-- `File::getpeername` of `impl FileMethods for File` (fd.rs lines
227-234): same shape as `File.getsockname` over `PR_GetPeerName`. -/
def File.getpeername (ffiStatus : Except Error Unit)
    (decoded : Option SocketAddr) : Except Error SocketAddr :=
  match ffiStatus with
  | Except.error e => Except.error e
  | Except.ok _ =>
      match decoded with
      | some addr => Except.ok addr
      | none => Except.error PR_ADDRESS_NOT_SUPPORTED_ERROR

/-- The foreign descriptor type tag (`PRDescType`) passed to
`FileWrapper::new`. -/
inductive FileType where
  | PR_DESC_FILE : FileType
  | PR_DESC_SOCKET_TCP : FileType
  | PR_DESC_SOCKET_UDP : FileType
  | PR_DESC_LAYERED : FileType
  | PR_DESC_PIPE : FileType
deriving DecidableEq, Repr

/-- Name of a dispatch function of the `wrapper_methods` module, as
stored into an operation-table slot (the function pointer
`wrapper_methods::<op>::<Inner>` in the source, identified here by
which operation it dispatches). -/
inductive DispatchFn where
  | close : DispatchFn
  | read : DispatchFn
  | write : DispatchFn
  | connect : DispatchFn
  | recv : DispatchFn
  | send : DispatchFn
  | getsockname : DispatchFn
  | getpeername : DispatchFn
  | getsocketoption : DispatchFn
deriving DecidableEq, Repr

/-- The foreign operation table (`ffi::PRIOMethods`), with every slot of
the layering protocol in source order; a slot holds `some f` when the
wrapper installs dispatch function `f` there and `none` when it is left
unset (`None` in the source). -/
structure PRIOMethods where
  file_type : FileType
  close : Option DispatchFn
  read : Option DispatchFn
  write : Option DispatchFn
  available : Option DispatchFn
  available64 : Option DispatchFn
  fsync : Option DispatchFn
  seek : Option DispatchFn
  seek64 : Option DispatchFn
  fileInfo : Option DispatchFn
  fileInfo64 : Option DispatchFn
  writev : Option DispatchFn
  connect : Option DispatchFn
  accept : Option DispatchFn
  bind : Option DispatchFn
  listen : Option DispatchFn
  shutdown : Option DispatchFn
  recv : Option DispatchFn
  send : Option DispatchFn
  recvfrom : Option DispatchFn
  sendto : Option DispatchFn
  poll : Option DispatchFn
  acceptread : Option DispatchFn
  transmitfile : Option DispatchFn
  getsockname : Option DispatchFn
  getpeername : Option DispatchFn
  reserved_fn_6 : Option DispatchFn
  reserved_fn_5 : Option DispatchFn
  getsocketoption : Option DispatchFn
  setsocketoption : Option DispatchFn
  sendfile : Option DispatchFn
  connectcontinue : Option DispatchFn
  reserved_fn_3 : Option DispatchFn
  reserved_fn_2 : Option DispatchFn
  reserved_fn_1 : Option DispatchFn
  reserved_fn_0 : Option DispatchFn
deriving DecidableEq, Repr

/-- The per-transport-type factory value (`FileWrapper<Inner>` in fd.rs):
it holds the one shared operation table (`methods_ref`, an
`Arc<PRIOMethods>` in the source). -/
structure FileWrapper where
  methods_ref : PRIOMethods
deriving DecidableEq, Repr

/-- `FileWrapper::new` (fd.rs lines 272-317): build the operation table
with exactly the slots the source sets, every other slot `None`, and
share it behind the factory. -/
def FileWrapper.new (file_type : FileType) : FileWrapper :=
  { methods_ref :=
      { file_type := file_type
        close := some DispatchFn.close
        read := some DispatchFn.read
        write := some DispatchFn.write
        available := none
        available64 := none
        fsync := none
        seek := none
        seek64 := none
        fileInfo := none
        fileInfo64 := none
        writev := none
        connect := some DispatchFn.connect
        accept := none
        bind := none
        listen := none
        shutdown := none
        recv := some DispatchFn.recv
        send := some DispatchFn.send
        recvfrom := none
        sendto := none
        poll := none
        acceptread := none
        transmitfile := none
        getsockname := some DispatchFn.getsockname
        getpeername := some DispatchFn.getpeername
        reserved_fn_6 := none
        reserved_fn_5 := none
        getsocketoption := some DispatchFn.getsocketoption
        setsocketoption := none
        sendfile := none
        connectcontinue := none
        reserved_fn_3 := none
        reserved_fn_2 := none
        reserved_fn_1 := none
        reserved_fn_0 := none } }

/-- The boxed pairing built by `wrap` (struct `WrappedFileImpl<Inner>`
in fd.rs): the embedded layer header, the retained reference to the
shared operation table, and the transport instance. -/
structure WrappedFileImpl (Inner : Type) where
  prfd : PRFileDesc
  methods_ref : PRIOMethods
  inner : Inner

/-- `FileWrapper::wrap` (fd.rs lines 319-342): heap-allocate the
`WrappedFileImpl` (at address `allocAddr` in the model), with a header
carrying the process-wide identity tag, and back-fill the secret field
with the allocation, so the embedded header's address and the returned
handle coincide; the table reference is a clone of the factory's shared
table. -/
def FileWrapper.wrap {Inner : Type} (w : FileWrapper) (allocAddr : Nat)
    (inner : Inner) : WrappedFileImpl Inner :=
  { prfd :=
      { identity := WRAPPED_FILE_IDENT
        addr := allocAddr
        secretHeaderAddr := allocAddr }
    methods_ref := w.methods_ref
    inner := inner }

/-- The raw auth-certificate-hook dispatch
(`raw_auth_certificate_hook` in lib.rs lines 161-177): the owning
`TLSSocket` recovered from the raw callback argument carries its raw
file descriptor (`sockFd`, the value of `sock.as_raw_prfd()`), which is
asserted equal to the descriptor argument `fdArg` before forwarding to
the registered `AuthCertificateHook` capability (`hook`); `Ok` becomes
the success sentinel, `Err e` is written into the thread-local error
channel (`err.set()`) before the failure sentinel is returned. The pair
carries the resulting status outcome and the thread-local error state
after the call. -/
def raw_auth_certificate_hook (sockFd : Nat) (fdArg : Nat)
    (hook : Bool → Bool → Except Error Unit)
    (check_sig : Bool) (is_server : Bool) (threadLocal : Option Error) :
    Outcome SECStatus × Option Error :=
  if sockFd = fdArg then
    match hook check_sig is_server with
    | Except.ok _ => (Outcome.ret SECStatus.SECSuccess, threadLocal)
    | Except.error e => (Outcome.ret SECStatus.SECFailure, some e)
  else (Outcome.trap, threadLocal)

/-- Shared shape of the four byte-moving dispatch callbacks: a returned
count is bounded by the requested amount. `f` stands for the transport
method already applied to its non-buffer arguments. -/
theorem byte_dispatch_ret_bound (f : Nat → MethodResult Nat)
    (fd : Option PRFileDesc) (amount n : Int)
    (h : ((wrapper_methods.xlate_fd fd).bind fun _ =>
        if amount < 0 then Outcome.trap
        else
          match f amount.toNat with
          | MethodResult.ok len =>
              if len ≤ amount.toNat then Outcome.ret (Int.ofNat len)
              else Outcome.trap
          | MethodResult.err e => Outcome.errorOut e
          | MethodResult.unimpl => Outcome.trap) = Outcome.ret n) :
    0 ≤ n ∧ n ≤ amount := by
  rcases fd with _ | d
  · exact absurd h (by simp [wrapper_methods.xlate_fd,
      BorrowedFile.from_raw_prfd_checked, Outcome.bind])
  · by_cases hid : d.identity = WRAPPED_FILE_IDENT
    · simp only [wrapper_methods.xlate_fd, BorrowedFile.from_raw_prfd_checked,
        BorrowedFile.from_raw_prfd, if_pos hid, Outcome.bind] at h
      by_cases hneg : amount < 0
      · rw [if_pos hneg] at h
        exact absurd h (by simp)
      · rw [if_neg hneg] at h
        cases hf : f amount.toNat with
        | ok len =>
          rw [hf] at h
          dsimp only at h
          by_cases hle : len ≤ amount.toNat
          · rw [if_pos hle] at h
            injection h with hn
            subst hn
            have hcast : Int.ofNat len = (len : Int) := rfl
            rw [hcast]
            omega
          · rw [if_neg hle] at h
            exact absurd h (by simp)
        | err e =>
          rw [hf] at h
          exact absurd h (by simp)
        | unimpl =>
          rw [hf] at h
          exact absurd h (by simp)
    · simp only [wrapper_methods.xlate_fd, BorrowedFile.from_raw_prfd_checked,
        if_neg hid, Outcome.bind] at h
      exact absurd h (by simp)

/-- Shared shape of the four byte-moving dispatch callbacks: a transport
over-reporting its count is stopped by the guard assertion. -/
theorem byte_dispatch_over_report_traps (f : Nat → MethodResult Nat)
    (d : PRFileDesc) (amount : Int) (len : Nat)
    (hid : d.identity = WRAPPED_FILE_IDENT) (h0 : 0 ≤ amount)
    (hf : f amount.toNat = MethodResult.ok len)
    (hover : amount.toNat < len) :
    ((wrapper_methods.xlate_fd (some d)).bind fun _ =>
        if amount < 0 then Outcome.trap
        else
          match f amount.toNat with
          | MethodResult.ok len =>
              if len ≤ amount.toNat then Outcome.ret (Int.ofNat len)
              else Outcome.trap
          | MethodResult.err e => Outcome.errorOut e
          | MethodResult.unimpl => Outcome.trap) = Outcome.trap := by
  simp only [wrapper_methods.xlate_fd, BorrowedFile.from_raw_prfd_checked,
    BorrowedFile.from_raw_prfd, if_pos hid, Outcome.bind]
  rw [if_neg (by omega), hf]
  dsimp only
  rw [if_neg (by omega)]

/-- Claim C1: for every wrapped byte-moving dispatch callback (read,
write, recv, send) and every requested amount, a success count returned
by the underlying transport is asserted not to exceed the requested
amount before being narrowed to the foreign 32-bit return value: any
count returned to the foreign caller is between 0 and the amount, and a
transport over-reporting a count triggers the guard assertion (a trap)
instead of being silently returned. -/
theorem byte_moving_dispatch_count_guard :
    (∀ (m : FileMethods) (fd : Option PRFileDesc) (amount n : Int),
        wrapper_methods.read m fd amount = Outcome.ret n →
        0 ≤ n ∧ n ≤ amount)
    ∧ (∀ (m : FileMethods) (fd : Option PRFileDesc) (amount n : Int),
        wrapper_methods.write m fd amount = Outcome.ret n →
        0 ≤ n ∧ n ≤ amount)
    ∧ (∀ (m : FileMethods) (fd : Option PRFileDesc) (amount : Int)
        (flags : Nat) (timeout : Option Duration) (n : Int),
        wrapper_methods.recv m fd amount flags timeout = Outcome.ret n →
        0 ≤ n ∧ n ≤ amount)
    ∧ (∀ (m : FileMethods) (fd : Option PRFileDesc) (amount : Int)
        (flags : Nat) (timeout : Option Duration) (n : Int),
        wrapper_methods.send m fd amount flags timeout = Outcome.ret n →
        0 ≤ n ∧ n ≤ amount)
    ∧ (∀ (m : FileMethods) (d : PRFileDesc) (amount : Int) (len : Nat),
        d.identity = WRAPPED_FILE_IDENT → 0 ≤ amount →
        m.read amount.toNat = MethodResult.ok len → amount.toNat < len →
        wrapper_methods.read m (some d) amount = Outcome.trap)
    ∧ (∀ (m : FileMethods) (d : PRFileDesc) (amount : Int) (len : Nat),
        d.identity = WRAPPED_FILE_IDENT → 0 ≤ amount →
        m.write amount.toNat = MethodResult.ok len → amount.toNat < len →
        wrapper_methods.write m (some d) amount = Outcome.trap)
    ∧ (∀ (m : FileMethods) (d : PRFileDesc) (amount : Int) (flags : Nat)
        (timeout : Option Duration) (len : Nat),
        d.identity = WRAPPED_FILE_IDENT → 0 ≤ amount →
        m.recv amount.toNat ((flags &&& PR_MSG_PEEK) ≠ 0 : Bool) timeout
          = MethodResult.ok len →
        amount.toNat < len →
        wrapper_methods.recv m (some d) amount flags timeout = Outcome.trap)
    ∧ (∀ (m : FileMethods) (d : PRFileDesc) (amount : Int) (flags : Nat)
        (timeout : Option Duration) (len : Nat),
        d.identity = WRAPPED_FILE_IDENT → 0 ≤ amount →
        m.send amount.toNat timeout = MethodResult.ok len →
        amount.toNat < len →
        wrapper_methods.send m (some d) amount flags timeout
          = Outcome.trap) := by
  refine ⟨?_, ?_, ?_, ?_, ?_, ?_, ?_, ?_⟩
  · intro m fd amount n h
    exact byte_dispatch_ret_bound m.read fd amount n h
  · intro m fd amount n h
    exact byte_dispatch_ret_bound m.write fd amount n h
  · intro m fd amount flags timeout n h
    exact byte_dispatch_ret_bound
      (fun k => m.recv k ((flags &&& PR_MSG_PEEK) ≠ 0 : Bool) timeout)
      fd amount n h
  · intro m fd amount flags timeout n h
    exact byte_dispatch_ret_bound (fun k => m.send k timeout) fd amount n h
  · intro m d amount len hid h0 hf hover
    exact byte_dispatch_over_report_traps m.read d amount len hid h0 hf hover
  · intro m d amount len hid h0 hf hover
    exact byte_dispatch_over_report_traps m.write d amount len hid h0 hf hover
  · intro m d amount flags timeout len hid h0 hf hover
    exact byte_dispatch_over_report_traps
      (fun k => m.recv k ((flags &&& PR_MSG_PEEK) ≠ 0 : Bool) timeout)
      d amount len hid h0 hf hover
  · intro m d amount flags timeout len hid h0 hf hover
    exact byte_dispatch_over_report_traps (fun k => m.send k timeout)
      d amount len hid h0 hf hover

/-- Misbehaving fake transport that over-reports every byte-moving
operation: it claims to have moved 5 bytes regardless of the buffer it
was given. -/
def overReportingTransport : FileMethods :=
  { read := fun _ => MethodResult.ok 5
    write := fun _ => MethodResult.ok 5
    connect := fun _ _ => MethodResult.unimpl
    recv := fun _ _ _ => MethodResult.ok 5
    send := fun _ _ => MethodResult.ok 5
    getsockname := MethodResult.unimpl
    getpeername := MethodResult.unimpl
    get_nonblocking := MethodResult.unimpl }

/-- Concrete wrapped-layer header used to exercise the dispatch
callbacks: it carries the process-wide identity tag and a consistent
address pair. -/
def testWrappedFd : PRFileDesc :=
  { identity := WRAPPED_FILE_IDENT, addr := 16, secretHeaderAddr := 16 }

theorem byte_moving_dispatch_count_guard_witness :
    wrapper_methods.read overReportingTransport (some testWrappedFd) 3
      = Outcome.trap
    ∧ wrapper_methods.write overReportingTransport (some testWrappedFd) 3
      = Outcome.trap
    ∧ wrapper_methods.recv overReportingTransport (some testWrappedFd) 3 0 none
      = Outcome.trap
    ∧ wrapper_methods.send overReportingTransport (some testWrappedFd) 3 0 none
      = Outcome.trap :=
  ⟨byte_moving_dispatch_count_guard.2.2.2.2.1 overReportingTransport
      testWrappedFd 3 5 rfl (by decide) rfl (by decide),
    byte_moving_dispatch_count_guard.2.2.2.2.2.1 overReportingTransport
      testWrappedFd 3 5 rfl (by decide) rfl (by decide),
    byte_moving_dispatch_count_guard.2.2.2.2.2.2.1 overReportingTransport
      testWrappedFd 3 0 none 5 rfl (by decide) rfl (by decide),
    byte_moving_dispatch_count_guard.2.2.2.2.2.2.2 overReportingTransport
      testWrappedFd 3 0 none 5 rfl (by decide) rfl (by decide)⟩

/-- Claim C2: the close dispatch callback asserts, before reclaiming the
heap allocation, that the address of the recovered `WrappedFileImpl`'s
embedded layer header equals the raw handle it was called with; only
when the assertion holds is the allocation reconstructed and dropped
(freed exactly once), and when the address re-verification fails nothing
is freed — the callback traps instead. -/
theorem close_dispatch_frees_exactly_once :
    (∀ (d : PRFileDesc) (freed : Nat),
        d.identity = WRAPPED_FILE_IDENT → d.secretHeaderAddr = d.addr →
        wrapper_methods.close (some d) freed
          = (Outcome.ret PRStatus.PR_SUCCESS, freed + 1))
    ∧ (∀ (d : PRFileDesc) (freed : Nat),
        d.identity = WRAPPED_FILE_IDENT → d.secretHeaderAddr ≠ d.addr →
        wrapper_methods.close (some d) freed = (Outcome.trap, freed))
    ∧ (∀ (fd : Option PRFileDesc) (freed : Nat),
        ((wrapper_methods.close fd freed).2 = freed + 1
            ∧ (wrapper_methods.close fd freed).1
                = Outcome.ret PRStatus.PR_SUCCESS)
          ∨ (wrapper_methods.close fd freed).2 = freed) := by
  refine ⟨?_, ?_, ?_⟩
  · intro d freed hid haddr
    simp [wrapper_methods.close, wrapper_methods.xlate_fd,
      BorrowedFile.from_raw_prfd_checked, BorrowedFile.from_raw_prfd,
      hid, haddr]
  · intro d freed hid haddr
    simp [wrapper_methods.close, wrapper_methods.xlate_fd,
      BorrowedFile.from_raw_prfd_checked, BorrowedFile.from_raw_prfd,
      hid, haddr]
  · intro fd freed
    rcases fd with _ | d
    · right; rfl
    · by_cases hid : d.identity = WRAPPED_FILE_IDENT
      · by_cases haddr : d.secretHeaderAddr = d.addr
        · left
          constructor <;>
            simp [wrapper_methods.close, wrapper_methods.xlate_fd,
              BorrowedFile.from_raw_prfd_checked, BorrowedFile.from_raw_prfd,
              hid, haddr]
        · right
          simp [wrapper_methods.close, wrapper_methods.xlate_fd,
            BorrowedFile.from_raw_prfd_checked, BorrowedFile.from_raw_prfd,
            hid, haddr]
      · right
        simp [wrapper_methods.close, wrapper_methods.xlate_fd,
          BorrowedFile.from_raw_prfd_checked, hid]

/-- Wrapped-layer header whose embedded header has been relocated in
place by layer-stack mutation: the secret back-pointer's header address
no longer matches the handle. -/
def relocatedWrappedFd : PRFileDesc :=
  { identity := WRAPPED_FILE_IDENT, addr := 16, secretHeaderAddr := 32 }

theorem close_dispatch_frees_exactly_once_witness :
    wrapper_methods.close (some testWrappedFd) 0
      = (Outcome.ret PRStatus.PR_SUCCESS, 1)
    ∧ wrapper_methods.close (some relocatedWrappedFd) 0 = (Outcome.trap, 0) :=
  ⟨close_dispatch_frees_exactly_once.1 testWrappedFd 0 rfl rfl,
    close_dispatch_frees_exactly_once.2.1 relocatedWrappedFd 0 rfl (by decide)⟩

/-- Claim C3: constructing a `BorrowedFile` from a raw handle asserts
the handle is non-null, and the checked constructor used by every
dispatch callback via `xlate_fd` additionally asserts that the handle's
identity tag equals the process-wide wrapped-file identity, trapping
with an assertion failure — never returning a recoverable error —
whenever the handle is not one of the layered wrappers. -/
theorem borrowed_file_identity_guard :
    BorrowedFile.from_raw_prfd none = Outcome.trap
    ∧ (∀ d, BorrowedFile.from_raw_prfd (some d) = Outcome.ret d)
    ∧ (∀ fd, wrapper_methods.xlate_fd fd
        = BorrowedFile.from_raw_prfd_checked fd WRAPPED_FILE_IDENT)
    ∧ (∀ (d : PRFileDesc) (ident : Nat), d.identity ≠ ident →
        BorrowedFile.from_raw_prfd_checked (some d) ident = Outcome.trap)
    ∧ (∀ (d : PRFileDesc) (ident : Nat), d.identity = ident →
        BorrowedFile.from_raw_prfd_checked (some d) ident = Outcome.ret d)
    ∧ (∀ (fd : Option PRFileDesc) (ident : Nat) (e : Error),
        BorrowedFile.from_raw_prfd_checked fd ident
          ≠ Outcome.errorOut e) := by
  refine ⟨rfl, fun d => rfl, fun fd => rfl, ?_, ?_, ?_⟩
  · intro d ident h
    simp [BorrowedFile.from_raw_prfd_checked, h]
  · intro d ident h
    simp [BorrowedFile.from_raw_prfd_checked, BorrowedFile.from_raw_prfd, h]
  · intro fd ident e h
    rcases fd with _ | d
    · simp [BorrowedFile.from_raw_prfd_checked] at h
    · by_cases hid : d.identity = ident
      · simp [BorrowedFile.from_raw_prfd_checked,
          BorrowedFile.from_raw_prfd, hid] at h
      · simp [BorrowedFile.from_raw_prfd_checked, hid] at h

/-- Layer header carrying a foreign identity tag: not one of this
implementation's wrapped layers. -/
def foreignLayerFd : PRFileDesc :=
  { identity := 99, addr := 8, secretHeaderAddr := 8 }

theorem borrowed_file_identity_guard_witness :
    BorrowedFile.from_raw_prfd_checked (some foreignLayerFd)
      WRAPPED_FILE_IDENT = Outcome.trap
    ∧ BorrowedFile.from_raw_prfd_checked (some testWrappedFd)
        WRAPPED_FILE_IDENT = Outcome.ret testWrappedFd :=
  ⟨borrowed_file_identity_guard.2.2.2.1 foreignLayerFd WRAPPED_FILE_IDENT
      (by decide),
    borrowed_file_identity_guard.2.2.2.2.1 testWrappedFd
      WRAPPED_FILE_IDENT rfl⟩

/-- Claim C4: dropping a `File` performs the close operation at most
once and only when its stored handle is non-null; the handle is swapped
to null before closing, so a consumed or already-dropped `File` never
closes again, and a close failure is observed but discarded, never
propagated out of the destructor (the destructor's effect does not
depend on the close result at all). -/
theorem file_drop_close_once_discard_error :
    (∀ r, File.drop none r = { newHandle := none, closeCalls := 0 })
    ∧ (∀ d r, File.drop (some d) r = { newHandle := none, closeCalls := 1 })
    ∧ (∀ fd r1 r2, File.drop fd r1 = File.drop fd r2)
    ∧ (∀ fd r, (File.drop fd r).closeCalls ≤ 1)
    ∧ (∀ fd r r2, File.drop (File.drop fd r).newHandle r2
        = { newHandle := none, closeCalls := 0 }) := by
  refine ⟨fun r => rfl, fun d r => rfl, ?_, ?_, ?_⟩
  · intro fd r1 r2
    cases fd <;> rfl
  · intro fd r
    cases fd <;> simp [File.drop]
  · intro fd r r2
    cases fd <;> rfl

/-- Claim C6: for every transport type, `FileWrapper::new` constructs an
operation table in which precisely the close, read, write, connect,
recv, send, getsockname, getpeername, and get-socket-option slots hold
the dispatch functions, while every other slot is left unset; the table
value is fixed at construction and every wrap through the same wrapper
shares that one table. -/
theorem file_wrapper_table_slots_and_sharing :
    (∀ ft : FileType,
      (FileWrapper.new ft).methods_ref.file_type = ft
      ∧ (FileWrapper.new ft).methods_ref.close = some DispatchFn.close
      ∧ (FileWrapper.new ft).methods_ref.read = some DispatchFn.read
      ∧ (FileWrapper.new ft).methods_ref.write = some DispatchFn.write
      ∧ (FileWrapper.new ft).methods_ref.connect = some DispatchFn.connect
      ∧ (FileWrapper.new ft).methods_ref.recv = some DispatchFn.recv
      ∧ (FileWrapper.new ft).methods_ref.send = some DispatchFn.send
      ∧ (FileWrapper.new ft).methods_ref.getsockname
          = some DispatchFn.getsockname
      ∧ (FileWrapper.new ft).methods_ref.getpeername
          = some DispatchFn.getpeername
      ∧ (FileWrapper.new ft).methods_ref.getsocketoption
          = some DispatchFn.getsocketoption
      ∧ (FileWrapper.new ft).methods_ref.available = none
      ∧ (FileWrapper.new ft).methods_ref.available64 = none
      ∧ (FileWrapper.new ft).methods_ref.fsync = none
      ∧ (FileWrapper.new ft).methods_ref.seek = none
      ∧ (FileWrapper.new ft).methods_ref.seek64 = none
      ∧ (FileWrapper.new ft).methods_ref.fileInfo = none
      ∧ (FileWrapper.new ft).methods_ref.fileInfo64 = none
      ∧ (FileWrapper.new ft).methods_ref.writev = none
      ∧ (FileWrapper.new ft).methods_ref.accept = none
      ∧ (FileWrapper.new ft).methods_ref.bind = none
      ∧ (FileWrapper.new ft).methods_ref.listen = none
      ∧ (FileWrapper.new ft).methods_ref.shutdown = none
      ∧ (FileWrapper.new ft).methods_ref.recvfrom = none
      ∧ (FileWrapper.new ft).methods_ref.sendto = none
      ∧ (FileWrapper.new ft).methods_ref.poll = none
      ∧ (FileWrapper.new ft).methods_ref.acceptread = none
      ∧ (FileWrapper.new ft).methods_ref.transmitfile = none
      ∧ (FileWrapper.new ft).methods_ref.reserved_fn_6 = none
      ∧ (FileWrapper.new ft).methods_ref.reserved_fn_5 = none
      ∧ (FileWrapper.new ft).methods_ref.setsocketoption = none
      ∧ (FileWrapper.new ft).methods_ref.sendfile = none
      ∧ (FileWrapper.new ft).methods_ref.connectcontinue = none
      ∧ (FileWrapper.new ft).methods_ref.reserved_fn_3 = none
      ∧ (FileWrapper.new ft).methods_ref.reserved_fn_2 = none
      ∧ (FileWrapper.new ft).methods_ref.reserved_fn_1 = none
      ∧ (FileWrapper.new ft).methods_ref.reserved_fn_0 = none)
    ∧ (∀ (Inner : Type) (w : FileWrapper) (a1 a2 : Nat) (i1 i2 : Inner),
        (FileWrapper.wrap w a1 i1).methods_ref = w.methods_ref
        ∧ (FileWrapper.wrap w a1 i1).methods_ref
            = (FileWrapper.wrap w a2 i2).methods_ref
        ∧ (FileWrapper.wrap w a1 i1).prfd.identity = WRAPPED_FILE_IDENT) := by
  constructor
  · intro ft
    exact ⟨rfl, rfl, rfl, rfl, rfl, rfl, rfl, rfl, rfl, rfl, rfl, rfl, rfl,
      rfl, rfl, rfl, rfl, rfl, rfl, rfl, rfl, rfl, rfl, rfl, rfl, rfl, rfl,
      rfl, rfl, rfl, rfl, rfl, rfl, rfl, rfl, rfl⟩
  · intro Inner w a1 a2 i1 i2
    exact ⟨rfl, rfl, rfl⟩

/-- Claim C7: an unsupported address family encountered during address
translation is reported as the recoverable address-not-supported domain
error through the ordinary result channel, not a trap: the connect
dispatch callback returns it when the foreign net-address cannot be
decoded, and the getsockname/getpeername operations of `File` return it
when the address produced by a successful foreign call cannot be
decoded. -/
theorem address_family_error_recoverable :
    (∀ (m : FileMethods) (d : PRFileDesc) (timeout : Option Duration),
        d.identity = WRAPPED_FILE_IDENT →
        wrapper_methods.connect m (some d) none timeout
          = Outcome.errorOut PR_ADDRESS_NOT_SUPPORTED_ERROR)
    ∧ (∀ (m : FileMethods) (d : PRFileDesc) (timeout : Option Duration),
        d.identity = WRAPPED_FILE_IDENT →
        wrapper_methods.connect m (some d) none timeout ≠ Outcome.trap)
    ∧ File.getsockname (Except.ok ()) none
        = Except.error PR_ADDRESS_NOT_SUPPORTED_ERROR
    ∧ File.getpeername (Except.ok ()) none
        = Except.error PR_ADDRESS_NOT_SUPPORTED_ERROR := by
  have hconn : ∀ (m : FileMethods) (d : PRFileDesc) (timeout : Option Duration),
      d.identity = WRAPPED_FILE_IDENT →
      wrapper_methods.connect m (some d) none timeout
        = Outcome.errorOut PR_ADDRESS_NOT_SUPPORTED_ERROR := by
    intro m d timeout hid
    simp [wrapper_methods.connect, wrapper_methods.xlate_fd,
      BorrowedFile.from_raw_prfd_checked, BorrowedFile.from_raw_prfd,
      hid, Outcome.bind]
  refine ⟨hconn, ?_, rfl, rfl⟩
  intro m d timeout hid
  rw [hconn m d timeout hid]
  simp

theorem address_family_error_recoverable_witness :
    wrapper_methods.connect FileMethods.defaults (some testWrappedFd)
      none none = Outcome.errorOut PR_ADDRESS_NOT_SUPPORTED_ERROR :=
  address_family_error_recoverable.1 FileMethods.defaults testWrappedFd
    none rfl

/-- Claim C9: the raw auth-certificate-hook dispatch re-validates the
handle by asserting pointer equality between the owning socket's raw
file descriptor and the descriptor argument (a mismatch traps), then
forwards to the registered hook: an `Ok` result becomes the foreign
success sentinel with the thread-local error state untouched, and an
`Err` result is written into the thread-local error channel before the
failure sentinel is returned. -/
theorem auth_certificate_hook_dispatch :
    (∀ (sockFd fdArg : Nat) (hook : Bool → Bool → Except Error Unit)
        (check_sig is_server : Bool) (tl : Option Error),
        sockFd ≠ fdArg →
        raw_auth_certificate_hook sockFd fdArg hook check_sig is_server tl
          = (Outcome.trap, tl))
    ∧ (∀ (sockFd : Nat) (hook : Bool → Bool → Except Error Unit)
        (check_sig is_server : Bool) (tl : Option Error),
        hook check_sig is_server = Except.ok () →
        raw_auth_certificate_hook sockFd sockFd hook check_sig is_server tl
          = (Outcome.ret SECStatus.SECSuccess, tl))
    ∧ (∀ (sockFd : Nat) (hook : Bool → Bool → Except Error Unit)
        (check_sig is_server : Bool) (tl : Option Error) (e : Error),
        hook check_sig is_server = Except.error e →
        raw_auth_certificate_hook sockFd sockFd hook check_sig is_server tl
          = (Outcome.ret SECStatus.SECFailure, some e)) := by
  refine ⟨?_, ?_, ?_⟩
  · intro sockFd fdArg hook cs srv tl hne
    simp [raw_auth_certificate_hook, hne]
  · intro sockFd hook cs srv tl hok
    simp [raw_auth_certificate_hook, hok]
  · intro sockFd hook cs srv tl e herr
    simp [raw_auth_certificate_hook, herr]

/-- Hook capability accepting every certificate. -/
def acceptAllHook : Bool → Bool → Except Error Unit :=
  fun _ _ => Except.ok ()

/-- Hook capability rejecting every certificate with a fixed error. -/
def rejectAllHook : Bool → Bool → Except Error Unit :=
  fun _ _ => Except.error ⟨-8172⟩

theorem auth_certificate_hook_dispatch_witness :
    raw_auth_certificate_hook 5 7 acceptAllHook true false none
      = (Outcome.trap, none)
    ∧ raw_auth_certificate_hook 5 5 acceptAllHook true false none
      = (Outcome.ret SECStatus.SECSuccess, none)
    ∧ raw_auth_certificate_hook 5 5 rejectAllHook true false none
      = (Outcome.ret SECStatus.SECFailure, some ⟨-8172⟩) :=
  ⟨auth_certificate_hook_dispatch.1 5 7 acceptAllHook true false none
      (by decide),
    auth_certificate_hook_dispatch.2.1 5 acceptAllHook true false none rfl,
    auth_certificate_hook_dispatch.2.2 5 rejectAllHook true false none
      ⟨-8172⟩ rfl⟩

/-- Claim C10: the get-socket-option dispatch callback supports only the
nonblocking option: queried with the nonblocking kind it forwards to the
transport's `get_nonblocking`, writing the boolean into the foreign
option structure on success and reporting a transport error through the
error channel; for every other option kind it panics (unimplemented),
never producing the failure sentinel or a recoverable error. -/
theorem getsocketoption_nonblocking_only :
    (∀ (m : FileMethods) (d : PRFileDesc) (b : Bool),
        d.identity = WRAPPED_FILE_IDENT →
        m.get_nonblocking = MethodResult.ok b →
        wrapper_methods.getsocketoption m (some d) SockOptionKind.Nonblocking
          = Outcome.ret (PRStatus.PR_SUCCESS, b))
    ∧ (∀ (m : FileMethods) (d : PRFileDesc) (e : Error),
        d.identity = WRAPPED_FILE_IDENT →
        m.get_nonblocking = MethodResult.err e →
        wrapper_methods.getsocketoption m (some d) SockOptionKind.Nonblocking
          = Outcome.errorOut e)
    ∧ (∀ (m : FileMethods) (d : PRFileDesc) (k : Nat),
        d.identity = WRAPPED_FILE_IDENT →
        wrapper_methods.getsocketoption m (some d) (SockOptionKind.other k)
          = Outcome.trap)
    ∧ (∀ (m : FileMethods) (fd : Option PRFileDesc) (k : Nat) (e : Error),
        wrapper_methods.getsocketoption m fd (SockOptionKind.other k)
          ≠ Outcome.errorOut e) := by
  refine ⟨?_, ?_, ?_, ?_⟩
  · intro m d b hid hnb
    simp [wrapper_methods.getsocketoption, wrapper_methods.xlate_fd,
      BorrowedFile.from_raw_prfd_checked, BorrowedFile.from_raw_prfd,
      hid, hnb, Outcome.bind]
  · intro m d e hid hnb
    simp [wrapper_methods.getsocketoption, wrapper_methods.xlate_fd,
      BorrowedFile.from_raw_prfd_checked, BorrowedFile.from_raw_prfd,
      hid, hnb, Outcome.bind]
  · intro m d k hid
    simp [wrapper_methods.getsocketoption, wrapper_methods.xlate_fd,
      BorrowedFile.from_raw_prfd_checked, BorrowedFile.from_raw_prfd,
      hid, Outcome.bind]
  · intro m fd k e h
    rcases fd with _ | d
    · simp [wrapper_methods.getsocketoption, wrapper_methods.xlate_fd,
        BorrowedFile.from_raw_prfd_checked, Outcome.bind] at h
    · by_cases hid : d.identity = WRAPPED_FILE_IDENT
      · simp [wrapper_methods.getsocketoption, wrapper_methods.xlate_fd,
          BorrowedFile.from_raw_prfd_checked, BorrowedFile.from_raw_prfd,
          hid, Outcome.bind] at h
      · simp [wrapper_methods.getsocketoption, wrapper_methods.xlate_fd,
          BorrowedFile.from_raw_prfd_checked, hid, Outcome.bind] at h

/-- Transport overriding only `get_nonblocking`, reporting a nonblocking
socket. -/
def nonblockingTransport : FileMethods :=
  { FileMethods.defaults with get_nonblocking := MethodResult.ok true }

theorem getsocketoption_nonblocking_only_witness :
    wrapper_methods.getsocketoption nonblockingTransport
      (some testWrappedFd) SockOptionKind.Nonblocking
      = Outcome.ret (PRStatus.PR_SUCCESS, true)
    ∧ wrapper_methods.getsocketoption nonblockingTransport
        (some testWrappedFd) (SockOptionKind.other 3) = Outcome.trap :=
  ⟨getsocketoption_nonblocking_only.1 nonblockingTransport testWrappedFd
      true rfl rfl,
    getsocketoption_nonblocking_only.2.2.1 nonblockingTransport
      testWrappedFd 3 rfl⟩
